import Mathlib

/-!
Shallow embedding of `src/controllers/authController.js` from the natours
repository (Express authentication controller), together with proofs of the
spec claims about it.

Handlers are modelled as pure functions from an explicit environment (the
external collaborators: JWT library, user store, mailer, hashing) and a
request to an outcome value.  JavaScript `undefined` for string-valued
fields is modelled as `Option.none`; JavaScript truthiness of a string
value (`!x` is true for `undefined` and `""`) is the `truthy` predicate
below.
-/

namespace Natours

/-- Modelled from the spec: `src/utils/appError.js` is not in the repository.
Per the spec, "errors are represented as operational errors carrying an HTTP
status code and a human-readable message"; the constructor takes the message
and the status code, and a call that omits the status code leaves it absent
(`none`), as a missing argument is `undefined` in JavaScript. -/
structure AppError where
  message : String
  statusCode : Option Nat
deriving DecidableEq

/-- A user record as this controller sees it (the store itself is external;
these are the fields `authController.js` reads or writes). -/
structure UserRec where
  userId : Nat
  name : String
  email : String
  password : Option String
  passwordConfirm : Option String
  role : Option String
  passwordResetToken : Option String
  passwordResetExpires : Option Nat
deriving DecidableEq

/-- JavaScript truthiness of an optional string: `undefined` and `""` are
falsy, every other string is truthy. -/
def truthy : Option String → Bool
  | none => false
  | some s => s ≠ ""

/-- The JSON response written by `createSendToken` (`res.cookie` +
`res.status(statusCode).json({status, token, data: {user}})`). -/
structure SendTokenResponse where
  statusCode : Nat
  token : String
  user : UserRec
  cookieJwt : String
deriving DecidableEq

/-- `createSendToken(user, statusCode, res)`: signs a token for `user._id`,
sets the `jwt` cookie to it, sets `user.password = undefined`, and writes the
JSON response.  `sign` is the external `signToken`/`jwt.sign` call. -/
def createSendToken (sign : Nat → String) (user : UserRec) (statusCode : Nat) :
    SendTokenResponse :=
  let token := sign user.userId
  { statusCode := statusCode
    token := token
    user := { user with password := none }
    cookieJwt := token }

/-- Outcome of a `catchAsync` handler that either responds via
`createSendToken` or calls `next` with an `AppError`. -/
inductive HandlerResult where
  | sent (r : SendTokenResponse)
  | nextErr (e : AppError)
deriving DecidableEq

/-- Environment for `login`: the user store lookup
(`User.findOne({email}).select('+password')`), the bcrypt comparison
(`user.correctPassword`, defined in the external user model), and `jwt.sign`. -/
structure LoginEnv where
  findByEmail : String → Option UserRec
  correctPassword : String → Option String → Bool
  sign : Nat → String

/-- The request body fields `login` reads. -/
structure LoginReq where
  email : Option String
  password : Option String

/-- `exports.login`: 400 when email or password is falsy, 401 when the user
does not exist or the password comparison fails, otherwise a 200 response via
`createSendToken`. -/
def login (env : LoginEnv) (req : LoginReq) : HandlerResult :=
  if ¬ (truthy req.email ∧ truthy req.password) then
    .nextErr ⟨"Please provide email and password !", some 400⟩
  else
    match env.findByEmail (req.email.getD "") with
    | none => .nextErr ⟨"Incorrect email or password !", some 401⟩
    | some user =>
      if env.correctPassword (req.password.getD "") user.password then
        .sent (createSendToken env.sign user 200)
      else
        .nextErr ⟨"Incorrect email or password !", some 401⟩

/-- Result of `jwt.verify` (external library, promisified in the source):
on success the decoded payload carries the signed-in user's id and the
issued-at time `iat`; on failure the library throws an error with a name
(e.g. `JsonWebTokenError`, `TokenExpiredError`). -/
inductive JwtVerifyResult where
  | ok (id : Nat) (iat : Nat)
  | fail (name : String)
deriving DecidableEq

/-- Environment for `protect`/`isLoggedIn`: `jwt.verify` with the server
secret, `User.findById`, and the user-model method `changedPasswordAfter`. -/
structure ProtectEnv where
  verify : String → JwtVerifyResult
  findById : Nat → Option UserRec
  changedPasswordAfter : UserRec → Nat → Bool

/-- The request fields `protect` reads: `req.headers.authorization` and
`req.cookies.jwt`. -/
structure ProtectReq where
  authorization : Option String
  cookieJwt : Option String

/-- JavaScript `String.prototype.startsWith(p)`: the character sequence of
`p` is a prefix of the character sequence of `s`. -/
def jsStartsWith (s p : String) : Bool :=
  p.data.isPrefixOf s.data

/-- Split a character list at every occurrence of `c` (JavaScript
`split(c)` semantics: adjacent separators yield empty pieces, and the
result is never the empty list). -/
def splitOnChar (c : Char) : List Char → List (List Char)
  | [] => [[]]
  | x :: xs =>
    let r := splitOnChar c xs
    if x = c then
      [] :: r
    else
      match r with
      | [] => [[x]]
      | y :: ys => (x :: y) :: ys

/-- JavaScript `String.prototype.split(' ')`. -/
def jsSplitSpace (s : String) : List String :=
  (splitOnChar ' ' s.data).map fun l => String.mk l

/-- Token extraction in `protect` (step 1): if the `Authorization` header is
truthy and starts with `Bearer`, the token is `header.split(' ')[1]`
(possibly `undefined`); otherwise, if the `jwt` cookie is truthy, the cookie
value; otherwise the `token` variable stays `undefined`. -/
def extractToken (req : ProtectReq) : Option String :=
  if truthy req.authorization && jsStartsWith (req.authorization.getD "") "Bearer" then
    (jsSplitSpace (req.authorization.getD ""))[1]?
  else if truthy req.cookieJwt then
    req.cookieJwt
  else
    none

/-- Outcome of the `protect` middleware: `next(new AppError(...))`, a raw
error thrown by `jwt.verify` and forwarded by `catchAsync` to the error
layer, or access granted (`req.user = currentUser; next()`). -/
inductive ProtectOutcome where
  | appError (e : AppError)
  | jwtError (name : String)
  | granted (user : UserRec)
deriving DecidableEq

/-- `exports.protect`: extract the token, 401 when it is falsy, verify it
(failure throws), 401 when the decoded id resolves to no user, 401 when the
user changed the password after `iat`, otherwise grant access. -/
def protect (env : ProtectEnv) (req : ProtectReq) : ProtectOutcome :=
  let token := extractToken req
  if truthy token = false then
    .appError ⟨"Authorization failed !. You are not log in !", some 401⟩
  else
    match env.verify (token.getD "") with
    | .fail name => .jwtError name
    | .ok id iat =>
      match env.findById id with
      | none => .appError ⟨"The user belonging to this token no longer exist !", some 401⟩
      | some currentUser =>
        if env.changedPasswordAfter currentUser iat then
          .appError ⟨"User recently has changed password, please login again !", some 401⟩
        else
          .granted currentUser

/-- Modelled from the spec: the HTTP status the client observes for each
`protect` outcome.  Errors are "funneled through a uniform async-error
adapter [`catchAsync`] that forwards thrown/rejected errors to a centralized
error-response layer (external, out of scope)"; neither `catchAsync` nor that
layer is under `src/`, and per the spec's contract table `protect` signals
"401 missing/invalid token, user deleted, or password changed post-issuance",
so a forwarded JWT verification error is represented as a 401 operational
error.  An `AppError` reports its own status code; granted access signals no
error. -/
def protectSignalledStatus : ProtectOutcome → Option Nat
  | .appError e => e.statusCode
  | .jwtError _ => some 401
  | .granted _ => none

/-- What `next` receives from `isLoggedIn`: always a plain `next()` in the
source, with `res.locals.user` possibly set beforehand; the `withError`
constructor exists so that "never calls `next` with an error" is a statement,
not a typing accident. -/
inductive NextCall where
  | clean (localsUser : Option UserRec)
  | withError (e : AppError)
deriving DecidableEq

/-- The request field `isLoggedIn` reads: `req.cookies.jwt`. -/
structure IsLoggedInReq where
  cookieJwt : Option String

/-- `exports.isLoggedIn`: when the `jwt` cookie is truthy, verify it, look up
the user and check `changedPasswordAfter`; every failure (including a thrown
verification error, caught by the surrounding `try`) leads to a plain
`next()`, and only full success sets `res.locals.user` before `next()`. -/
def isLoggedIn (env : ProtectEnv) (req : IsLoggedInReq) : NextCall :=
  if truthy req.cookieJwt then
    match env.verify (req.cookieJwt.getD "") with
    | .fail _ => .clean none
    | .ok id iat =>
      match env.findById id with
      | none => .clean none
      | some currentUser =>
        if env.changedPasswordAfter currentUser iat then
          .clean none
        else
          .clean (some currentUser)
  else
    .clean none

/-- The user `isLoggedIn` attaches to `res.locals`, if any: exactly the one
resolved from a truthy cookie whose verification succeeds, who still exists,
and whose password has not changed since issuance. -/
def resolvedUser (env : ProtectEnv) (req : IsLoggedInReq) : Option UserRec :=
  if truthy req.cookieJwt then
    match env.verify (req.cookieJwt.getD "") with
    | .fail _ => none
    | .ok id iat =>
      match env.findById id with
      | none => none
      | some currentUser =>
        if env.changedPasswordAfter currentUser iat then none
        else some currentUser
  else
    none

/-- Persist one mutated user document back into the store (`user.save()`:
the external store updates the document with this id atomically). -/
def saveUser (store : List UserRec) (u : UserRec) : List UserRec :=
  store.map fun v => if v.userId = u.userId then u else v

/-- Environment for `forgotPassword`.  `resetTokenPlain`, `resetTokenHash`
and `resetExpires` are what this invocation of the external user-model method
`createPasswordResetToken` produces (it returns the plain random token and
sets `passwordResetToken` to its hash and `passwordResetExpires` to the
window end on the document); `emailOk` is whether
`new Email(user, resetURL).sendPasswordReset()` resolves or rejects. -/
structure ForgotEnv where
  resetTokenPlain : String
  resetTokenHash : String
  resetExpires : Nat
  emailOk : Bool

/-- Outcome of `forgotPassword`: a plain JSON success response, or
`next(err, extraArg)` — the source's failure path passes `500` as a second
argument to `next` (not to the `AppError` constructor), and Express ignores
every argument after the first, so that `500` is recorded here as the ignored
`extraNextArg`. -/
inductive ForgotResult where
  | ok (status : Nat) (message : String)
  | nextErr (e : AppError) (extraNextArg : Option Nat)
deriving DecidableEq

/-- `exports.forgotPassword`: find the user by `req.body.email` (404 when
none), set the reset-token fields via `createPasswordResetToken` and save,
then try to send the reset email: on success respond 200; on rejection clear
`passwordResetToken`/`passwordResetExpires`, save again, and call
`next(new AppError('There was an error sending email, try again !'), 500)`. -/
def forgotPassword (env : ForgotEnv) (store : List UserRec) (email : String) :
    ForgotResult × List UserRec :=
  match store.find? (fun u => u.email = email) with
  | none =>
    (.nextErr ⟨"There is no user with that email address !", some 404⟩ none, store)
  | some user =>
    let user1 := { user with
      passwordResetToken := some env.resetTokenHash
      passwordResetExpires := some env.resetExpires }
    let store1 := saveUser store user1
    if env.emailOk then
      (.ok 200 "Token has been sent to email", store1)
    else
      let user2 := { user1 with
        passwordResetToken := none
        passwordResetExpires := none }
      (.nextErr ⟨"There was an error sending email, try again !", none⟩ (some 500),
        saveUser store1 user2)

/-- Environment for `resetPassword`: `jwt.sign`, the current clock
(`Date.now()`), and the external `crypto.createHash('sha256')...digest('hex')`
as an abstract function. -/
structure ResetEnv where
  sign : Nat → String
  now : Nat
  sha256hex : String → String

/-- The inputs `resetPassword` reads: the raw token URL parameter and the new
password fields of the body. -/
structure ResetReq where
  paramToken : String
  password : String
  passwordConfirm : String

/-- The `User.findOne` filter in `resetPassword`: stored
`passwordResetToken` equals the hashed URL token and `passwordResetExpires`
is strictly greater than `Date.now()` (`{$gt: Date.now()}`; a missing expiry
matches nothing). -/
def resetMatches (hashedToken : String) (now : Nat) (u : UserRec) : Bool :=
  u.passwordResetToken = some hashedToken &&
    match u.passwordResetExpires with
    | some e => now < e
    | none => false

/-- `exports.resetPassword`: hash the URL token, find a user whose stored
reset-token hash matches with an unexpired window (400 when none), then set
the new password, clear both reset-token fields, save, and log the user in
via `createSendToken`. -/
def resetPassword (env : ResetEnv) (store : List UserRec) (req : ResetReq) :
    HandlerResult × List UserRec :=
  let hashedToken := env.sha256hex req.paramToken
  match store.find? (resetMatches hashedToken env.now) with
  | none =>
    (.nextErr ⟨"This token has been expired or user doee not exist", some 400⟩, store)
  | some user =>
    let user1 := { user with
      password := some req.password
      passwordConfirm := some req.passwordConfirm
      passwordResetToken := none
      passwordResetExpires := none }
    (.sent (createSendToken env.sign user1 200), saveUser store user1)

/-- Environment for `updatePassword`: the bcrypt comparison and `jwt.sign`. -/
structure UpdatePasswordEnv where
  correctPassword : String → Option String → Bool
  sign : Nat → String

/-- The body fields `updatePassword` reads. -/
structure UpdatePasswordReq where
  passwordCurrent : String
  password : String
  passwordConfirm : String

/-- `exports.updatePassword`: `user` is the record fetched by
`User.findById(req.user._id).select('+password')` (the `protect` middleware
ran before, so it exists).  If `passwordCurrent` does not verify against the
stored password, 401 and the record is untouched; otherwise assign the new
password fields, save, and log the user in via `createSendToken`.  The
returned record is the user's persisted state after the handler. -/
def updatePassword (env : UpdatePasswordEnv) (user : UserRec)
    (req : UpdatePasswordReq) : HandlerResult × UserRec :=
  if ¬ env.correctPassword req.passwordCurrent user.password then
    (.nextErr ⟨"Current password is wrong !", some 401⟩, user)
  else
    let user1 := { user with
      password := some req.password
      passwordConfirm := some req.passwordConfirm }
    (.sent (createSendToken env.sign user1 200), user1)

/-- The argument object `signup` passes to `User.create`: exactly the five
listed body fields, including the client-supplied `role`. -/
structure CreateUserArg where
  name : Option String
  email : Option String
  password : Option String
  passwordConfirm : Option String
  role : Option String
deriving DecidableEq

/-- The body fields `signup` reads. -/
structure SignupBody where
  name : Option String
  email : Option String
  password : Option String
  passwordConfirm : Option String
  role : Option String

/-- Environment for `signup`: the external `User.create` (validation and
hashing live in the external model) and `jwt.sign`. -/
structure SignupEnv where
  create : CreateUserArg → UserRec
  sign : Nat → String

/-- `exports.signup`: build the `User.create` argument from
`req.body.{name,email,password,passwordConfirm,role}`, create the user, send
the welcome email, and respond 201 via `createSendToken`.  The create
argument is returned alongside the response so that what was forwarded to
the store is observable. -/
def signup (env : SignupEnv) (body : SignupBody) :
    CreateUserArg × SendTokenResponse :=
  let arg : CreateUserArg := { name := body.name
                               email := body.email
                               password := body.password
                               passwordConfirm := body.passwordConfirm
                               role := body.role }
  let newUser := env.create arg
  (arg, createSendToken env.sign newUser 201)

/-! ## Theorems -/

/-- C5: `login` returns 200 with a signed token when the email resolves to a
user and the password verifies; it signals a 400 operational error when the
email or the password field of the body is falsy (in particular missing); and
a 401 operational error when the user does not exist or the password does not
verify. -/
theorem login_contract (env : LoginEnv) (req : LoginReq) :
    (¬ (truthy req.email ∧ truthy req.password) →
      login env req = .nextErr ⟨"Please provide email and password !", some 400⟩) ∧
    ((truthy req.email ∧ truthy req.password) →
      (env.findByEmail (req.email.getD "") = none →
        login env req = .nextErr ⟨"Incorrect email or password !", some 401⟩) ∧
      (∀ user, env.findByEmail (req.email.getD "") = some user →
        (env.correctPassword (req.password.getD "") user.password = false →
          login env req = .nextErr ⟨"Incorrect email or password !", some 401⟩) ∧
        (env.correctPassword (req.password.getD "") user.password = true →
          login env req = .sent
            { statusCode := 200
              token := env.sign user.userId
              user := { user with password := none }
              cookieJwt := env.sign user.userId }))) := by
  refine ⟨fun h => ?_, fun h => ⟨fun hf => ?_, fun user hu => ⟨fun hc => ?_, fun hc => ?_⟩⟩⟩
  · simp [login, h]
  · simp [login, h, hf]
  · simp [login, h, hu, hc]
  · simp [login, h, hu, hc, createSendToken]

/-- A login environment where no email resolves to a user. -/
def loginEnv0 : LoginEnv :=
  { findByEmail := fun _ => none
    correctPassword := fun _ _ => false
    sign := fun _ => "signed-token" }

/-- Witness for C5: a request with a missing email is answered with the 400
operational error. -/
theorem login_contract_witness :
    login loginEnv0 { email := none, password := some "pass1234" } =
      .nextErr ⟨"Please provide email and password !", some 400⟩ :=
  (login_contract loginEnv0 { email := none, password := some "pass1234" }).1
    (by decide)

/-- C9: `signup` forwards the client-supplied `role` field of the request
body to `User.create`, alongside `name`, `email`, `password` and
`passwordConfirm`. -/
theorem signup_forwards_role (env : SignupEnv) (body : SignupBody) :
    (signup env body).1.role = body.role ∧
    (signup env body).1.name = body.name ∧
    (signup env body).1.email = body.email ∧
    (signup env body).1.password = body.password ∧
    (signup env body).1.passwordConfirm = body.passwordConfirm :=
  ⟨rfl, rfl, rfl, rfl, rfl⟩

/-- C7: every success response built by `createSendToken` — hence every
success response of `signup`, `login`, `resetPassword` and `updatePassword` —
serializes the user with the `password` field set to `undefined`. -/
theorem response_password_cleared :
    (∀ (sign : Nat → String) (user : UserRec) (code : Nat),
      (createSendToken sign user code).user.password = none) ∧
    (∀ (env : SignupEnv) (body : SignupBody),
      ((signup env body).2).user.password = none) ∧
    (∀ (env : LoginEnv) (req : LoginReq) (r : SendTokenResponse),
      login env req = .sent r → r.user.password = none) ∧
    (∀ (env : ResetEnv) (store : List UserRec) (req : ResetReq)
      (r : SendTokenResponse) (store2 : List UserRec),
      resetPassword env store req = (.sent r, store2) → r.user.password = none) ∧
    (∀ (env : UpdatePasswordEnv) (user : UserRec) (req : UpdatePasswordReq)
      (r : SendTokenResponse) (u2 : UserRec),
      updatePassword env user req = (.sent r, u2) → r.user.password = none) := by
  refine ⟨fun _ _ _ => rfl, fun _ _ => rfl, ?_, ?_, ?_⟩
  · intro env req r h
    unfold login at h
    split at h
    · exact HandlerResult.noConfusion h
    · split at h
      · exact HandlerResult.noConfusion h
      · split at h
        · simp only [HandlerResult.sent.injEq] at h
          subst h
          rfl
        · exact HandlerResult.noConfusion h
  · intro env store req r store2 h
    unfold resetPassword at h
    dsimp only at h
    split at h
    · simp only [Prod.mk.injEq] at h
      exact HandlerResult.noConfusion h.1
    · simp only [Prod.mk.injEq, HandlerResult.sent.injEq] at h
      obtain ⟨rfl, -⟩ := h
      rfl
  · intro env user req r u2 h
    unfold updatePassword at h
    split at h
    · simp only [Prod.mk.injEq] at h
      exact HandlerResult.noConfusion h.1
    · simp only [Prod.mk.injEq, HandlerResult.sent.injEq] at h
      obtain ⟨rfl, -⟩ := h
      rfl

/-- Witness for C7: the login success branch at a concrete environment
carries a user record with no password. -/
theorem response_password_cleared_witness :
    ({ statusCode := 200, token := "signed-token",
       user := { userId := 7, name := "N", email := "n@x.com", password := none,
                 passwordConfirm := none, role := some "user",
                 passwordResetToken := none, passwordResetExpires := none },
       cookieJwt := "signed-token" } : SendTokenResponse).user.password = none :=
  response_password_cleared.1 (fun _ => "signed-token")
    { userId := 7, name := "N", email := "n@x.com", password := some "secret-hash",
      passwordConfirm := none, role := some "user",
      passwordResetToken := none, passwordResetExpires := none } 200

/-- C2: `protect` signals a 401 operational error exactly when the request
carries no (truthy) token, the token fails verification, the decoded id
resolves to no user, or the resolved user changed the password after the
token's `iat`; otherwise it attaches exactly the resolved user and
continues. -/
theorem protect_contract (env : ProtectEnv) (req : ProtectReq) :
    (protectSignalledStatus (protect env req) = some 401 ↔
      truthy (extractToken req) = false ∨
      (∃ n, env.verify ((extractToken req).getD "") = .fail n) ∨
      (∃ i t, env.verify ((extractToken req).getD "") = .ok i t ∧
        env.findById i = none) ∨
      (∃ i t u, env.verify ((extractToken req).getD "") = .ok i t ∧
        env.findById i = some u ∧ env.changedPasswordAfter u t = true)) ∧
    (∀ u, protect env req = .granted u ↔
      truthy (extractToken req) = true ∧
      ∃ i t, env.verify ((extractToken req).getD "") = .ok i t ∧
        env.findById i = some u ∧ env.changedPasswordAfter u t = false) := by
  cases ht : truthy (extractToken req) with
  | false =>
    have hp : protect env req =
        .appError ⟨"Authorization failed !. You are not log in !", some 401⟩ := by
      simp [protect, ht]
    constructor
    · rw [hp]
      exact iff_of_true rfl (Or.inl rfl)
    · intro u
      rw [hp]
      constructor
      · intro h
        exact ProtectOutcome.noConfusion h
      · rintro ⟨h, -⟩
        exact Bool.noConfusion h
  | true =>
    cases hv : env.verify ((extractToken req).getD "") with
    | fail n =>
      have hp : protect env req = .jwtError n := by
        simp [protect, ht, hv]
      constructor
      · rw [hp]
        exact iff_of_true rfl (Or.inr (Or.inl ⟨n, rfl⟩))
      · intro u
        rw [hp]
        constructor
        · intro h
          exact ProtectOutcome.noConfusion h
        · rintro ⟨-, i, t, hv', -⟩
          exact JwtVerifyResult.noConfusion hv'
    | ok i t =>
      cases hf : env.findById i with
      | none =>
        have hp : protect env req =
            .appError ⟨"The user belonging to this token no longer exist !", some 401⟩ := by
          simp [protect, ht, hv, hf]
        constructor
        · rw [hp]
          exact iff_of_true rfl (Or.inr (Or.inr (Or.inl ⟨i, t, rfl, hf⟩)))
        · intro u
          rw [hp]
          constructor
          · intro h
            exact ProtectOutcome.noConfusion h
          · rintro ⟨-, i', t', hv', hf', -⟩
            injection hv' with e1 e2
            subst e1
            rw [hf] at hf'
            exact Option.noConfusion hf'
      | some u0 =>
        cases hc : env.changedPasswordAfter u0 t with
        | true =>
          have hp : protect env req =
              .appError ⟨"User recently has changed password, please login again !", some 401⟩ := by
            simp [protect, ht, hv, hf, hc]
          constructor
          · rw [hp]
            exact iff_of_true rfl
              (Or.inr (Or.inr (Or.inr ⟨i, t, u0, rfl, hf, hc⟩)))
          · intro u
            rw [hp]
            constructor
            · intro h
              exact ProtectOutcome.noConfusion h
            · rintro ⟨-, i', t', hv', hf', hc'⟩
              injection hv' with e1 e2
              subst e1
              subst e2
              rw [hf] at hf'
              injection hf' with e
              subst e
              rw [hc] at hc'
              exact Bool.noConfusion hc'
        | false =>
          have hp : protect env req = .granted u0 := by
            simp [protect, ht, hv, hf, hc]
          constructor
          · rw [hp]
            refine iff_of_false ?_ ?_
            · intro h
              exact Option.noConfusion h
            · rintro (h | ⟨n, hv'⟩ | ⟨i', t', hv', hf'⟩ | ⟨i', t', u', hv', hf', hc'⟩)
              · exact Bool.noConfusion h
              · exact JwtVerifyResult.noConfusion hv'
              · injection hv' with e1 e2
                subst e1
                rw [hf] at hf'
                exact Option.noConfusion hf'
              · injection hv' with e1 e2
                subst e1
                subst e2
                rw [hf] at hf'
                injection hf' with e
                subst e
                rw [hc] at hc'
                exact Bool.noConfusion hc'
          · intro u
            rw [hp]
            constructor
            · intro h
              injection h with e
              subst e
              exact ⟨rfl, i, t, rfl, hf, hc⟩
            · rintro ⟨-, i', t', hv', hf', -⟩
              injection hv' with e1 e2
              subst e1
              rw [hf] at hf'
              injection hf' with e
              rw [e]

/-- An environment for the token middlewares where verification always
fails, no id resolves to a user, and no password change is reported. -/
def protectEnv0 : ProtectEnv :=
  { verify := fun _ => .fail "JsonWebTokenError"
    findById := fun _ => none
    changedPasswordAfter := fun _ _ => false }

/-- Witness for C2: a request with neither header nor cookie is signalled a
401. -/
theorem protect_contract_witness :
    protectSignalledStatus (protect protectEnv0 ⟨none, none⟩) = some 401 :=
  ((protect_contract protectEnv0 ⟨none, none⟩).1).mpr (Or.inl (by decide))

/-- C8: `isLoggedIn` never calls `next` with an error: every run ends in a
plain `next()`, with `res.locals.user` set exactly when the cookie token is
truthy, verifies, resolves to an existing user, and that user's password has
not changed since the token's `iat`. -/
theorem isLoggedIn_silent (env : ProtectEnv) (req : IsLoggedInReq) :
    isLoggedIn env req = .clean (resolvedUser env req) ∧
    (∀ e, isLoggedIn env req ≠ NextCall.withError e) ∧
    (∀ u, resolvedUser env req = some u ↔
      truthy req.cookieJwt = true ∧
      ∃ i t, env.verify (req.cookieJwt.getD "") = .ok i t ∧
        env.findById i = some u ∧ env.changedPasswordAfter u t = false) := by
  have hmain : isLoggedIn env req = .clean (resolvedUser env req) := by
    cases ht : truthy req.cookieJwt with
    | false => simp [isLoggedIn, resolvedUser, ht]
    | true =>
      cases hv : env.verify (req.cookieJwt.getD "") with
      | fail n => simp [isLoggedIn, resolvedUser, ht, hv]
      | ok i t =>
        cases hf : env.findById i with
        | none => simp [isLoggedIn, resolvedUser, ht, hv, hf]
        | some u0 =>
          cases hc : env.changedPasswordAfter u0 t with
          | false => simp [isLoggedIn, resolvedUser, ht, hv, hf, hc]
          | true => simp [isLoggedIn, resolvedUser, ht, hv, hf, hc]
  refine ⟨hmain, fun e he => ?_, fun u => ?_⟩
  · rw [hmain] at he
    exact NextCall.noConfusion he
  · cases ht : truthy req.cookieJwt with
    | false =>
      have hr : resolvedUser env req = none := by
        simp [resolvedUser, ht]
      rw [hr]
      constructor
      · intro h
        exact Option.noConfusion h
      · rintro ⟨h, -⟩
        exact Bool.noConfusion h
    | true =>
      cases hv : env.verify (req.cookieJwt.getD "") with
      | fail n =>
        have hr : resolvedUser env req = none := by
          simp [resolvedUser, ht, hv]
        rw [hr]
        constructor
        · intro h
          exact Option.noConfusion h
        · rintro ⟨-, i, t, hv', -⟩
          exact JwtVerifyResult.noConfusion hv'
      | ok i t =>
        cases hf : env.findById i with
        | none =>
          have hr : resolvedUser env req = none := by
            simp [resolvedUser, ht, hv, hf]
          rw [hr]
          constructor
          · intro h
            exact Option.noConfusion h
          · rintro ⟨-, i', t', hv', hf', -⟩
            injection hv' with e1 e2
            subst e1
            rw [hf] at hf'
            exact Option.noConfusion hf'
        | some u0 =>
          cases hc : env.changedPasswordAfter u0 t with
          | true =>
            have hr : resolvedUser env req = none := by
              simp [resolvedUser, ht, hv, hf, hc]
            rw [hr]
            constructor
            · intro h
              exact Option.noConfusion h
            · rintro ⟨-, i', t', hv', hf', hc'⟩
              injection hv' with e1 e2
              subst e1
              subst e2
              rw [hf] at hf'
              injection hf' with e
              subst e
              rw [hc] at hc'
              exact Bool.noConfusion hc'
          | false =>
            have hr : resolvedUser env req = some u0 := by
              simp [resolvedUser, ht, hv, hf, hc]
            rw [hr]
            constructor
            · intro h
              injection h with e
              subst e
              exact ⟨rfl, i, t, rfl, hf, hc⟩
            · rintro ⟨-, i', t', hv', hf', -⟩
              injection hv' with e1 e2
              subst e1
              rw [hf] at hf'
              injection hf' with e
              rw [e]

/-- Witness for C8: with a cookie whose verification fails, `isLoggedIn`
still calls a clean `next()` with no user attached. -/
theorem isLoggedIn_silent_witness :
    isLoggedIn protectEnv0 ⟨some "bad-token"⟩ =
      .clean (resolvedUser protectEnv0 ⟨some "bad-token"⟩) :=
  (isLoggedIn_silent protectEnv0 ⟨some "bad-token"⟩).1

/-- C10: when the `Authorization` header starts with `Bearer`, `protect`
takes its token from `header.split(' ')[1]` and never consults the cookie
(the extracted token is independent of the cookie); in particular a header
that is exactly `Bearer` yields no token and a 401, whatever the cookie
holds. -/
theorem bearer_precedence (env : ProtectEnv) (auth : String) (c : Option String)
    (hb : jsStartsWith auth "Bearer" = true) :
    extractToken ⟨some auth, c⟩ = (jsSplitSpace auth)[1]? ∧
    (∀ c2, extractToken ⟨some auth, c2⟩ = extractToken ⟨some auth, c⟩) ∧
    protect env ⟨some "Bearer", c⟩ =
      .appError ⟨"Authorization failed !. You are not log in !", some 401⟩ := by
  have hne : auth ≠ "" := by
    intro h
    subst h
    exact absurd hb (by decide)
  have hx : ∀ c2 : Option String, extractToken ⟨some auth, c2⟩ = (jsSplitSpace auth)[1]? := by
    intro c2
    simp [extractToken, truthy, hne, hb]
  refine ⟨hx c, fun c2 => (hx c2).trans (hx c).symm, ?_⟩
  have hext : extractToken ⟨some "Bearer", c⟩ = none := rfl
  simp [protect, hext, truthy]

/-- Witness for C10: with header exactly `Bearer` and a cookie present,
`protect` answers the missing-token 401. -/
theorem bearer_precedence_witness :
    protect protectEnv0 ⟨some "Bearer", some "good-cookie"⟩ =
      .appError ⟨"Authorization failed !. You are not log in !", some 401⟩ :=
  (bearer_precedence protectEnv0 "Bearer" (some "good-cookie") (by decide)).2.2

/-- C3: when no stored user matches the hashed reset token with an expiry
strictly in the future, `resetPassword` signals the 400 operational error and
leaves the store untouched. -/
theorem resetPassword_invalid_token (env : ResetEnv) (store : List UserRec)
    (req : ResetReq)
    (h : ∀ u ∈ store, resetMatches (env.sha256hex req.paramToken) env.now u = false) :
    resetPassword env store req =
      (.nextErr ⟨"This token has been expired or user doee not exist", some 400⟩,
       store) := by
  have hfind : store.find? (resetMatches (env.sha256hex req.paramToken) env.now) = none := by
    rw [List.find?_eq_none]
    intro u hu
    rw [h u hu]
    exact Bool.noConfusion
  unfold resetPassword
  dsimp only
  rw [hfind]

/-- A user whose stored reset token expired before the clock of
`resetEnv0`. -/
def userA : UserRec :=
  { userId := 1
    name := "A"
    email := "a@x.com"
    password := some "old-hash"
    passwordConfirm := none
    role := some "user"
    passwordResetToken := some "t"
    passwordResetExpires := some 50 }

/-- A reset environment whose clock is past `userA`'s expiry; the hash
function is the identity so the URL token `t` hashes to the stored value. -/
def resetEnv0 : ResetEnv :=
  { sign := fun _ => "signed-token"
    now := 100
    sha256hex := fun s => s }

/-- Witness for C3: a matching-hash but expired token is answered 400 and
the store is unchanged. -/
theorem resetPassword_invalid_token_witness :
    resetPassword resetEnv0 [userA] ⟨"t", "newpass", "newpass"⟩ =
      (.nextErr ⟨"This token has been expired or user doee not exist", some 400⟩,
       [userA]) :=
  resetPassword_invalid_token resetEnv0 [userA] ⟨"t", "newpass", "newpass"⟩
    (by decide)

/-- C4: `updatePassword` with a current password that does not verify
signals the 401 operational error and leaves the stored record unchanged;
with a verifying current password it persists the new password and responds
200 with a freshly signed token. -/
theorem updatePassword_contract (env : UpdatePasswordEnv) (user : UserRec)
    (req : UpdatePasswordReq) :
    (env.correctPassword req.passwordCurrent user.password = false →
      updatePassword env user req =
        (.nextErr ⟨"Current password is wrong !", some 401⟩, user)) ∧
    (env.correctPassword req.passwordCurrent user.password = true →
      updatePassword env user req =
        (.sent { statusCode := 200
                 token := env.sign user.userId
                 user := { user with password := none
                                     passwordConfirm := some req.passwordConfirm }
                 cookieJwt := env.sign user.userId },
         { user with password := some req.password
                     passwordConfirm := some req.passwordConfirm })) := by
  constructor
  · intro h
    simp [updatePassword, h]
  · intro h
    simp [updatePassword, h, createSendToken]

/-- An environment for `updatePassword` under which no password verifies. -/
def updEnv0 : UpdatePasswordEnv :=
  { correctPassword := fun _ _ => false
    sign := fun _ => "signed-token" }

/-- Witness for C4: a wrong current password is answered 401 and the record
is unchanged. -/
theorem updatePassword_contract_witness :
    updatePassword updEnv0 userA ⟨"wrong", "newpass", "newpass"⟩ =
      (.nextErr ⟨"Current password is wrong !", some 401⟩, userA) :=
  (updatePassword_contract updEnv0 userA ⟨"wrong", "newpass", "newpass"⟩).1
    (by decide)

/-- C6: `forgotPassword` for an email that resolves to no stored user
signals the 404 operational error, generates no reset token, and leaves the
store untouched. -/
theorem forgotPassword_unknown_email (env : ForgotEnv) (store : List UserRec)
    (email : String) (h : ∀ u ∈ store, u.email ≠ email) :
    forgotPassword env store email =
      (.nextErr ⟨"There is no user with that email address !", some 404⟩ none,
       store) := by
  have hfind : store.find? (fun u => u.email = email) = none := by
    rw [List.find?_eq_none]
    intro u hu
    simp [h u hu]
  unfold forgotPassword
  rw [hfind]

/-- A forgot-password environment whose email dispatch fails. -/
def forgotEnvFail : ForgotEnv :=
  { resetTokenPlain := "plain-token"
    resetTokenHash := "hashed-token"
    resetExpires := 9999
    emailOk := false }

/-- Witness for C6: an unknown email against a one-user store is answered
404 with the store unchanged. -/
theorem forgotPassword_unknown_email_witness :
    forgotPassword forgotEnvFail [userA] "nobody@x.com" =
      (.nextErr ⟨"There is no user with that email address !", some 404⟩ none,
       [userA]) :=
  forgotPassword_unknown_email forgotEnvFail [userA] "nobody@x.com" (by decide)

/-- C1: evaluation of `forgotPassword` at a known email whose reset email
fails to send.  The reset-token fields are cleared and the user saved, as
the claim states; but the operational error passed to `next` carries no
status code: the literal `500` is passed as the ignored second argument of
`next`, not to the `AppError` constructor, so no 500 status is signalled. -/
theorem forgotPassword_email_failure_eval :
    forgotPassword forgotEnvFail [userA] "a@x.com" =
      (.nextErr ⟨"There was an error sending email, try again !", none⟩ (some 500),
       [{ userA with passwordResetToken := none, passwordResetExpires := none }]) ∧
    ((forgotPassword forgotEnvFail [userA] "a@x.com").1 ≠
      ForgotResult.nextErr
        ⟨"There was an error sending email, try again !", some 500⟩ (some 500)) := by
  constructor
  · decide
  · decide

end Natours
